/-
Verification of the EarningsVolAnalysis core pipeline against its
natural-language specification.

Shallow embedding conventions:
 - Python floats are idealized as exact rationals for the purely
   arithmetic components (gates, regime classifier, alignment scorer,
   event-variance extractor, scoring engine) and as real numbers for the
   components built on transcendental functions (Black-Scholes-Merton
   pricing kernel, Monte Carlo move simulator).
 - The scipy normal CDF is modelled as an explicit function parameter of
   the pricing kernel (it is an external library routine, not code of
   this repository).
 - Python dicts whose key set matters (the regime dict consumed by the
   alignment scorer) are modelled as association lists with a lookup
   carrying a default, mirroring dict.get.
 - Fallible code (raise ValueError) is modelled with Except.
-/
import Mathlib

namespace EarningsVol

/-! ## Market snapshot (main.py builds this dict once per run)

Fields are the numeric snapshot entries read by the strategy gates and
the regime classifier (spec section 6 lists the full set).  All values
are rationals; day counts are stored as rationals and truncated to
integers exactly where the Python code applies int(). -/

structure Snapshot where
  spot : ℚ
  implied_move : ℚ
  historical_p75 : ℚ
  front_iv : ℚ
  back_iv : ℚ
  event_variance_ratio : ℚ
  iv_ratio : ℚ
  short_delta : ℚ
  days_after_event : ℚ
  front_dte : ℚ
  back_dte : ℚ
  gex_net : ℚ
  gex_abs : ℚ
deriving DecidableEq

/-- Python int() applied to a float: truncation toward zero
(for negative q this is the ceiling, written here as a negated floor). -/
def pyInt (q : ℚ) : ℤ := if 0 ≤ q then ⌊q⌋ else -⌊-q⌋

/-! ## Backspread entry gate
(strategies/backspreads.py, backspread_conditions_met)

Config constants inlined from config.py:
BACKSPREAD_MIN_IV_RATIO = 1.40, BACKSPREAD_MIN_EVENT_VAR_RATIO = 0.50,
BACKSPREAD_MAX_IMPLIED_OVER_P75 = 0.90, BACKSPREAD_MIN_SHORT_DELTA = 0.08,
BACK3_DTE_MIN = 21, BACK3_DTE_MAX = 45. -/

def backspread_conditions_met (s : Snapshot) : Bool :=
  let ivr := s.iv_ratio
  let event_var_rat := s.event_variance_ratio
  let implied_move := s.implied_move
  let historical_p75 := s.historical_p75
  let short_delta := s.short_delta
  let back_dte : ℤ := pyInt s.back_dte
  let iv_ok := ivr ≥ 14/10
  let event_ok := event_var_rat ≥ 1/2
  let pricing_ok := implied_move ≤ historical_p75 * (9/10)
  let delta_ok := short_delta ≥ 8/100
  let dte_ok := 21 ≤ back_dte ∧ back_dte ≤ 45
  decide (iv_ok ∧ event_ok ∧ pricing_ok ∧ delta_ok ∧ dte_ok)

/-! ## Calendar entry gate
(strategies/calendar.py, calendar_conditions_met)

CALENDAR_MIN_TERM_SPREAD_DAYS = 14 (config.py). -/

def calendar_conditions_met (s : Snapshot) : Bool :=
  let days_after : ℤ := pyInt s.days_after_event
  let front_dte : ℤ := pyInt s.front_dte
  let back_dte : ℤ := pyInt s.back_dte
  if days_after ≠ 0 then false
  else
    let term_spread_days := |back_dte - front_dte|
    if term_spread_days < 14 then false
    else true

/-- Exchange the front_dte and back_dte snapshot fields (used to state
the inversion-symmetry half of the calendar-gate claim). -/
def swap_dte (s : Snapshot) : Snapshot :=
  { s with front_dte := s.back_dte, back_dte := s.front_dte }

/-! ## Event variance extractor (analytics/event_vol.py, event_variance)

The chain handling (atm_iv over a pandas DataFrame) and calendar lookups
(business_days over pandas bdate_range) are external to the variance
arithmetic; the embedding therefore takes the at-the-money implied vols
and the business-day counts as inputs and reproduces the arithmetic of
event_variance line by line from there.  TIME_EPSILON = 1e-6
(config.py). -/

def TIME_EPSILON : ℚ := 1/1000000

/-- analytics/event_vol.py, _linear_interp. -/
def linear_interp (x1 y1 x2 y2 x_target : ℚ) : ℚ :=
  if x2 = x1 then y1
  else y1 + ((x_target - x1) / (x2 - x1)) * (y2 - y1)

/-- The fields of the dict returned by event_variance that the claims
touch (the remaining fields are diagnostic strings and echoes of the
inputs). -/
structure EventVarOut where
  front_iv : ℚ
  back_iv : ℚ
  event_var : ℚ
  raw_event_var : ℚ
  ratio : ℚ
  warning_level : Option String
  event_variance_ratio : ℚ
  negative_event_var : Bool
deriving DecidableEq

/-- analytics/event_vol.py, event_variance: bd_front, bd_back1, bd_back2
are business_days(today, expiry) for the three expiries; bd_event is
business_days(event_date, front_expiry).  front_iv and back1_iv are the
atm_iv results for the front and back1 chains, back2_iv the optional
back2 atm_iv (present together with its day count). -/
def event_variance (front_iv back1_iv : ℚ) (back2 : Option (ℚ × ℚ))
    (bd_front bd_back1 bd_event : ℚ) : EventVarOut :=
  let t_front := max (bd_front / 252) TIME_EPSILON
  let t_back1 := max (bd_back1 / 252) TIME_EPSILON
  let dt_event := max (bd_event / 252) TIME_EPSILON
  let tv_pre :=
    match back2 with
    | some (back2_iv, bd_back2) =>
        let t_back2 := max (bd_back2 / 252) TIME_EPSILON
        linear_interp t_back1 (t_back1 * back1_iv ^ 2)
          t_back2 (t_back2 * back2_iv ^ 2)
          (max (t_front - dt_event) TIME_EPSILON)
    | none => max (t_front - dt_event) TIME_EPSILON * back1_iv ^ 2
  let raw_event_var_annualized := (t_front * front_iv ^ 2 - tv_pre) / dt_event
  let event_var_daily := raw_event_var_annualized / 252
  let ratio := |event_var_daily| / max (front_iv ^ 2 / 252) TIME_EPSILON
  let warning_level : Option String :=
    if raw_event_var_annualized < 0 then
      some (if ratio > 1/10 then "severe" else "mild")
    else none
  let event_var := max event_var_daily 0
  let total_front_var := t_front * front_iv ^ 2 / 252
  let raw_event_var := event_var_daily
  let evr := if total_front_var > 0 then raw_event_var / total_front_var else 0
  { front_iv := front_iv
    back_iv := back1_iv
    event_var := event_var
    raw_event_var := raw_event_var
    ratio := ratio
    warning_level := warning_level
    event_variance_ratio := evr
    negative_event_var := raw_event_var < 0 }

/-! ## Scoring and ranking engine (strategies/scoring.py, score_strategies)

The input rows are the metric dicts produced by compute_metrics; the
fields read by score_strategies are ev, convexity, cvar, robustness and
risk_classification.  score_strategies adds score, rank and
risk_penalty_applied and returns the rows sorted by descending score
(Python sorted: stable).  The score_components entry (decompose_score)
is omitted: it feeds neither the score nor the rank nor the sort.
SCORING_WEIGHTS = ev 0.4, convexity 0.3, cvar 0.2, robustness 0.1
(config.py). -/

structure ResultRow where
  ev : ℚ
  convexity : ℚ
  cvar : ℚ
  robustness : ℚ
  risk_classification : String
deriving DecidableEq

structure ScoredRow where
  ev : ℚ
  convexity : ℚ
  cvar : ℚ
  robustness : ℚ
  risk_classification : String
  risk_penalty_applied : Bool
  score : ℚ
  rank : ℕ
deriving DecidableEq

/-- math.isclose with the default rel_tol 1e-9 and abs_tol 0.0. -/
def isclose (a b : ℚ) : Bool := |a - b| ≤ (1/1000000000) * max |a| |b|

/-- strategies/scoring.py, _normalize: min-max over the batch, constant
batches map to 0.5 everywhere.  Python min/max on an empty list raise;
the head default is junk only reachable for empty input. -/
def pyNormalize (values : List ℚ) : List ℚ :=
  let min_val := values.foldl min (values.headD 0)
  let max_val := values.foldl max (values.headD 0)
  if isclose min_val max_val then values.map (fun _ => 1/2)
  else values.map (fun v => (v - min_val) / (max_val - min_val))

/-- Stable insertion of a into an already sorted list under the
comes-before test r (a is placed before the first b with r a b). -/
def insertStable (r : ScoredRow → ScoredRow → Bool) (a : ScoredRow) :
    List ScoredRow → List ScoredRow
  | [] => [a]
  | b :: l => if r a b then a :: b :: l else b :: insertStable r a l

/-- Python sorted(key=..., reverse=True) is a stable sort; a right fold
of stable insertions computes the same list for the total preorder
used here. -/
def pySorted (r : ScoredRow → ScoredRow → Bool) (l : List ScoredRow) :
    List ScoredRow := l.foldr (insertStable r) []

/-- strategies/scoring.py, score_strategies.  The norm dict is modelled
as a function from the metric key to the normalized column; the score
accumulates over SCORING_WEIGHTS in source order; rank = idx + 1 is
taken from the enumeration of the INPUT list (the code assigns it
before the final sort). -/
def score_strategies (results : List ResultRow) : List ScoredRow :=
  let norm : String → List ℚ := fun key =>
    if key == "ev" then pyNormalize (results.map (·.ev))
    else if key == "convexity" then pyNormalize (results.map (·.convexity))
    else if key == "cvar" then pyNormalize (results.map (·.cvar))
    else pyNormalize (results.map (·.robustness))
  let weights : List (String × ℚ) :=
    [("ev", 4/10), ("convexity", 3/10), ("cvar", 2/10), ("robustness", 1/10)]
  let scored := results.enum.map (fun p =>
    let idx := p.1
    let item := p.2
    let base := weights.foldl
      (fun acc kw => acc + kw.2 * ((norm kw.1).getD idx 0)) 0
    let penalized := item.risk_classification == "undefined_risk"
    let score := if penalized then base * (9/10) else base
    { ev := item.ev
      convexity := item.convexity
      cvar := item.cvar
      robustness := item.robustness
      risk_classification := item.risk_classification
      risk_penalty_applied := penalized
      score := score
      rank := idx + 1 })
  pySorted (fun a b => decide (b.score ≤ a.score)) scored

/-! ## Regime classifier (regime.py, classify_regime) and alignment
scorer (alignment.py)

classify_regime returns a plain Python dict and compute_alignment reads
that dict with dict.get carrying defaults, so the dict is modelled as an
association list over a small value type; the key set of the embedded
dict literal is exactly the key set of the return statement of
classify_regime. -/

inductive PyVal where
  | str : String → PyVal
  | num : ℚ → PyVal
  | numlist : List ℚ → PyVal
deriving DecidableEq

/-- Python dict.get(key, default). -/
def dget (d : List (String × PyVal)) (key : String) (dflt : PyVal) : PyVal :=
  match d.find? (fun kv => kv.1 == key) with
  | some kv => kv.2
  | none => dflt

/-- dict.get(key, default) for a float-valued entry. -/
def dnum (d : List (String × PyVal)) (key : String) (dflt : ℚ) : ℚ :=
  match dget d key (.num dflt) with
  | .num q => q
  | _ => dflt

/-- dict.get(key, default) for a list-valued entry. -/
def dnumlist (d : List (String × PyVal)) (key : String) (dflt : List ℚ) :
    List ℚ :=
  match dget d key (.numlist dflt) with
  | .numlist l => l
  | _ => dflt

/-- Python str.startswith, over the character lists (String.startsWith
itself does not reduce in the kernel). -/
def pyStartswith (s p : String) : Bool :=
  s.data.take p.data.length == p.data

/-- regime.py, classify_regime, returned dict verbatim (thresholds
0.85/1.10 for vol, 0.50/0.70 for event, -0.05/0.10/0.20 for term
structure, 0.7 for gamma concentration; confidence weights
0.4/0.3/0.3). -/
def classify_regime (s : Snapshot) : List (String × PyVal) :=
  let ratio_p75 := s.implied_move / s.historical_p75
  let vol_label :=
    if ratio_p75 < 85/100 then "Tail Underpriced"
    else if ratio_p75 > 110/100 then "Tail Overpriced"
    else "Fairly Priced"
  let ev_ratio := s.event_variance_ratio
  let event_label :=
    if ev_ratio > 7/10 then "Pure Binary Event"
    else if ev_ratio > 1/2 then "Event-Dominant"
    else "Distributed Volatility"
  let spread := s.front_iv - s.back_iv
  let term_label :=
    if spread > 2/10 then "Extreme Front Premium"
    else if spread > 1/10 then "Elevated Front Premium"
    else if spread < -(5/100) then "Inverted Structure"
    else "Normal Structure"
  let gex_ratio := if s.gex_abs > 0 then |s.gex_net| / s.gex_abs else 0
  let gamma_label :=
    if s.gex_net < 0 ∧ gex_ratio > 7/10 then "Amplified Move Regime"
    else if s.gex_net > 0 ∧ gex_ratio > 7/10 then "Pin Risk Regime"
    else "Neutral Gamma"
  let composite :=
    if vol_label = "Tail Underpriced" ∧ pyStartswith gamma_label "Amplified"
        ∧ ev_ratio > 6/10 then "Convex Breakout Setup"
    else if vol_label = "Tail Overpriced" ∧ pyStartswith gamma_label "Pin" then
      "Premium Harvest Setup"
    else "Mixed / Transitional Setup"
  let vol_conf := min (|ratio_p75 - 1| / (20/100)) 1
  let gamma_conf := if s.gex_abs > 0 then min (|s.gex_net| / s.gex_abs) 1 else 0
  let event_conf := min (ev_ratio / (8/10)) 1
  let regime_confidence :=
    4/10 * vol_conf + 3/10 * gamma_conf + 3/10 * event_conf
  [("vol_regime", .str vol_label),
   ("event_regime", .str event_label),
   ("term_structure_regime", .str term_label),
   ("gamma_regime", .str gamma_label),
   ("composite_regime", .str composite),
   ("vol_ratio", .num ratio_p75),
   ("gex_ratio", .num gex_ratio),
   ("vol_confidence", .num vol_conf),
   ("gamma_confidence", .num gamma_conf),
   ("event_confidence", .num event_conf),
   ("confidence", .num regime_confidence)]

/-- alignment.py, _percentile_rank. -/
def percentile_rank (value : ℚ) (population : List ℚ) : ℚ :=
  if population.length = 0 then 1/2
  else ((population.filter (fun x => x ≤ value)).length : ℚ) /
    (population.length : ℚ)

/-- alignment.py, _scaled_sign. -/
def scaled_sign (value : ℚ) (desired_positive : Bool) (scale : ℚ) : ℚ :=
  if scale = 0 then 1/2
  else
    let normalized := max (min (value / scale) 1) (-1)
    if desired_positive then (normalized + 1) / 2
    else (1 - normalized) / 2

/-- Python round(x, 3): round half to even at the third decimal
(idealized to exact decimals). -/
def round3 (x : ℚ) : ℚ :=
  let m := x * 1000
  let f := ⌊m⌋
  let r := m - f
  let k : ℤ :=
    if r < 1/2 then f
    else if r > 1/2 then f + 1
    else if f % 2 = 0 then f else f + 1
  (k : ℚ) / 1000

/-- The axis scores and composites returned by compute_alignment (the
alignment_breakdown and alignment_heatmap entries repeat the same four
rounded axis values). -/
structure AlignOut where
  alignment_score : ℚ
  alignment_weighted : ℚ
  gamma_alignment : ℚ
  vega_alignment : ℚ
  convexity_alignment : ℚ
  tail_alignment : ℚ
deriving DecidableEq

/-- alignment.py, compute_alignment.  The regime argument is the dict
from classify_regime; the strategy and population_stats dicts carry the
keys read here (net_gamma, net_vega, convexity, cvar;
median_abs_gamma, median_abs_vega, convexities, cvars). -/
def compute_alignment (strategy regime population_stats :
    List (String × PyVal)) : AlignOut :=
  let gamma_bias := dget regime "gamma_bias" (.str "neutral")
  let gamma_score :=
    if gamma_bias = .str "neutral" then 1/2
    else if gamma_bias = .str "long_gamma" then
      scaled_sign (dnum strategy "net_gamma" 0) true
        (dnum population_stats "median_abs_gamma" 1)
    else
      scaled_sign (dnum strategy "net_gamma" 0) false
        (dnum population_stats "median_abs_gamma" 1)
  let vol_regime := dget regime "vol_regime" (.str "Fairly Priced")
  let vega_score :=
    if vol_regime = .str "Tail Underpriced" then
      scaled_sign (dnum strategy "net_vega" 0) true
        (dnum population_stats "median_abs_vega" 1)
    else if vol_regime = .str "Tail Overpriced" then
      scaled_sign (dnum strategy "net_vega" 0) false
        (dnum population_stats "median_abs_vega" 1)
    else 1/2
  let composite := dget regime "composite_regime"
    (.str "Mixed / Transitional Setup")
  let conv_rank := percentile_rank (dnum strategy "convexity" 0)
    (dnumlist population_stats "convexities" [])
  let convexity_score :=
    if composite = .str "Convex Breakout Setup" then conv_rank
    else if composite = .str "Premium Harvest Setup" then 1 - conv_rank
    else 1/2
  let cvar_rank := percentile_rank (dnum strategy "cvar" 0)
    (dnumlist population_stats "cvars" [])
  let tail_score :=
    if vol_regime = .str "Tail Underpriced" then 1 - cvar_rank
    else 1/2
  let alignment_score :=
    (gamma_score + vega_score + convexity_score + tail_score) / 4
  let alignment_weighted := alignment_score * dnum regime "confidence" (1/2)
  { alignment_score := round3 alignment_score
    alignment_weighted := round3 alignment_weighted
    gamma_alignment := round3 gamma_score
    vega_alignment := round3 vega_score
    convexity_alignment := round3 convexity_score
    tail_alignment := round3 tail_score }

/-- Stable insertion for rational lists (used to model the sort inside
np.median). -/
def insertLe (a : ℚ) : List ℚ → List ℚ
  | [] => [a]
  | b :: l => if a ≤ b then a :: b :: l else b :: insertLe a l

/-- np.median: sort, take the middle element (odd length) or the mean of
the two middle elements (even length); never applied to an empty list by
compute_all_alignments. -/
def npmedian (l : List ℚ) : ℚ :=
  let s := l.foldr insertLe []
  let n := s.length
  if n = 0 then 0
  else if n % 2 = 1 then s.getD (n / 2) 0
  else (s.getD (n / 2 - 1) 0 + s.getD (n / 2) 0) / 2

/-- alignment.py, compute_all_alignments: population statistics from the
strategy batch, then one compute_alignment per strategy (the Python
version mutates each strategy dict in place; the embedding returns the
attached alignment records in order). -/
def compute_all_alignments (strategies : List (List (String × PyVal)))
    (regime : List (String × PyVal)) : List AlignOut :=
  let gammas := strategies.map (fun s => |dnum s "net_gamma" 0|)
  let vegas := strategies.map (fun s => |dnum s "net_vega" 0|)
  let convexities := strategies.map (fun s => dnum s "convexity" 0)
  let cvars := strategies.map (fun s => dnum s "cvar" 0)
  let population_stats : List (String × PyVal) :=
    [("median_abs_gamma",
       .num (if gammas.length = 0 then 1 else npmedian gammas)),
     ("median_abs_vega",
       .num (if vegas.length = 0 then 1 else npmedian vegas)),
     ("convexities", .numlist convexities),
     ("cvars", .numlist cvars)]
  strategies.map (fun s => compute_alignment s regime population_stats)

/-! ## Pricing kernel (analytics/bsm.py)

Real-valued embedding.  scipy.stats.norm.cdf is an external library
routine and is passed in as the function parameter cdf; np.log, np.exp
and np.sqrt are the Lean real functions.  An invalid option type raises
ValueError in the source, modelled with Except.error. -/

/-- analytics/bsm.py, option_price (scalar). -/
noncomputable def option_price (cdf : ℝ → ℝ)
    (spot strike t r q iv : ℝ) (option_type : String) : Except String ℝ :=
  if t ≤ 0 then
    if option_type = "call" then .ok (max (spot - strike) 0)
    else if option_type = "put" then .ok (max (strike - spot) 0)
    else .error "option_type must be call or put"
  else
    let d1 := (Real.log (spot / strike) + (r - q + (1/2) * iv ^ 2) * t) /
      (iv * Real.sqrt t)
    let d2 := d1 - iv * Real.sqrt t
    if option_type = "call" then
      .ok (spot * Real.exp (-q * t) * cdf d1 -
        strike * Real.exp (-r * t) * cdf d2)
    else if option_type = "put" then
      .ok (strike * Real.exp (-r * t) * cdf (-d2) -
        spot * Real.exp (-q * t) * cdf (-d1))
    else .error "option_type must be call or put"

/-- analytics/bsm.py, option_price_vec: the vectorized variant maps the
same branch formulas over the spot array (numpy broadcasts; the type
check and branch selection happen once for the whole array). -/
noncomputable def option_price_vec (cdf : ℝ → ℝ) (spot_arr : List ℝ)
    (strike t r q iv : ℝ) (option_type : String) : Except String (List ℝ) :=
  if t ≤ 0 then
    if option_type = "call" then
      .ok (spot_arr.map (fun s => max (s - strike) 0))
    else if option_type = "put" then
      .ok (spot_arr.map (fun s => max (strike - s) 0))
    else .error "option_type must be call or put"
  else
    if option_type = "call" then
      .ok (spot_arr.map (fun s =>
        let d1 := (Real.log (s / strike) + (r - q + (1/2) * iv ^ 2) * t) /
          (iv * Real.sqrt t)
        let d2 := d1 - iv * Real.sqrt t
        s * Real.exp (-q * t) * cdf d1 -
          strike * Real.exp (-r * t) * cdf d2))
    else if option_type = "put" then
      .ok (spot_arr.map (fun s =>
        let d1 := (Real.log (s / strike) + (r - q + (1/2) * iv ^ 2) * t) /
          (iv * Real.sqrt t)
        let d2 := d1 - iv * Real.sqrt t
        strike * Real.exp (-r * t) * cdf (-d2) -
          s * Real.exp (-q * t) * cdf (-d1)))
    else .error "option_type must be call or put"

/-! ## Monte Carlo move simulator (simulation/monte_carlo.py,
simulate_moves)

np.random.default_rng(seed) builds a generator whose state is a pure
function of the seed when one is given, and is taken from OS entropy
when seed is None.  The ambient entropy is modelled as a World value,
the generator state as the Nat it is built from, and the library's
standard-normal sampler as a function parameter from generator state and
count to the drawn variates.  The per-sample transform and the
degenerate branch follow the source; the _validate call only logs and
does not affect the returned array. -/

structure World where
  entropy : ℕ

/-- np.random.default_rng: seeded construction ignores the ambient
entropy, unseeded construction consumes it. -/
def default_rng (seed : Option ℕ) (w : World) : ℕ :=
  match seed with
  | some s => s
  | none => w.entropy

/-- simulation/monte_carlo.py, simulate_moves. -/
noncomputable def simulate_moves (std_normal : ℕ → ℕ → List ℝ) (w : World)
    (event_vol : ℝ) (simulations : ℕ) (seed : Option ℕ) : List ℝ :=
  if event_vol ≤ 0 then List.replicate simulations 0
  else
    let sigma_1d := event_vol / Real.sqrt 252
    let rng := default_rng seed w
    let z := std_normal rng simulations
    z.map (fun zi => Real.exp (-(1/2) * sigma_1d ^ 2 + sigma_1d * zi) - 1)

/-- strategies/payoff.py, strategy_pnl_vec line 70: the simulated
terminal spots, new_spots = spot * (1.0 + moves). -/
noncomputable def new_spots (spot : ℝ) (moves : List ℝ) : List ℝ :=
  moves.map (fun m => spot * (1 + m))

/-! ## Concrete inputs used by the evaluation theorems and witnesses -/

/-- A snapshot passing every backspread gate with short_delta exactly at
the 0.08 boundary. -/
def backspreadPassSnap : Snapshot :=
  { spot := 100, implied_move := 5/100, historical_p75 := 1/10,
    front_iv := 7/10, back_iv := 1/2, event_variance_ratio := 3/5,
    iv_ratio := 3/2, short_delta := 8/100, days_after_event := 0,
    front_dte := 7, back_dte := 30, gex_net := 0, gex_abs := 1 }

/-- The same snapshot with short_delta 0.079, just under the boundary. -/
def backspreadFailSnap : Snapshot :=
  { backspreadPassSnap with short_delta := 79/1000 }

/-- Inverted term structure: front_dte 35, back_dte 7, pre-event. -/
def calendarInvSnap : Snapshot :=
  { spot := 100, implied_move := 5/100, historical_p75 := 1/10,
    front_iv := 7/10, back_iv := 1/2, event_variance_ratio := 3/5,
    iv_ratio := 3/2, short_delta := 8/100, days_after_event := 0,
    front_dte := 35, back_dte := 7, gex_net := 0, gex_abs := 1 }

/-- A strategy batch of two rows in which the first row scores strictly
lower than the second on every metric. -/
def rowLow : ResultRow :=
  { ev := 0, convexity := 0, cvar := 0, robustness := 0,
    risk_classification := "defined_risk" }

def rowHigh : ResultRow :=
  { ev := 1, convexity := 1, cvar := 1, robustness := 1,
    risk_classification := "defined_risk" }

/-- A snapshot whose dealer-gamma regime is Amplified Move Regime
(gex_net = -1, gex_abs = 1, concentration 1 > 0.7). -/
def amplifiedSnap : Snapshot :=
  { spot := 100, implied_move := 1/10, historical_p75 := 1/10,
    front_iv := 1/2, back_iv := 1/2, event_variance_ratio := 0,
    iv_ratio := 1, short_delta := 0, days_after_event := 0,
    front_dte := 7, back_dte := 35, gex_net := -1, gex_abs := 1 }

/-- A strategy dict with strongly positive net gamma. -/
def gammaStrat : List (String × PyVal) :=
  [("net_gamma", .num 5), ("net_vega", .num 0),
   ("convexity", .num 1), ("cvar", .num (-1))]

/-- The population statistics compute_all_alignments builds for the
batch [gammaStrat]: median absolute net gamma 5 (nonzero scale). -/
def gammaPopStats : List (String × PyVal) :=
  [("median_abs_gamma", .num 5), ("median_abs_vega", .num 0),
   ("convexities", .numlist [1]), ("cvars", .numlist [-1])]

/-- A snapshot with a negative event_variance_ratio (as event_variance
produces when the raw event variance is negative) and neutral vol and
gamma readings. -/
def negEvSnap : Snapshot :=
  { spot := 100, implied_move := 1/10, historical_p75 := 1/10,
    front_iv := 1/2, back_iv := 1/2, event_variance_ratio := -(4/5),
    iv_ratio := 1, short_delta := 0, days_after_event := 0,
    front_dte := 7, back_dte := 35, gex_net := 0, gex_abs := 1 }

/-- A snapshot with a nonnegative event_variance_ratio (confidence
witness input). -/
def okSnap : Snapshot :=
  { spot := 100, implied_move := 1/10, historical_p75 := 1/10,
    front_iv := 1/2, back_iv := 1/2, event_variance_ratio := 3/5,
    iv_ratio := 1, short_delta := 0, days_after_event := 0,
    front_dte := 7, back_dte := 35, gex_net := 0, gex_abs := 1 }

/-! ## Theorems -/

/-- C1: score_strategies returns the batch sorted descending by
composite score, but the rank field is assigned from the enumeration of
the INPUT list before the sort, so it does not equal the 1-based
position in score order: on a two-row batch whose second row dominates,
the returned head (the highest scorer) carries rank 2 and the tail
rank 1, contradicting the claim that rank 1 is the highest-scoring
strategy and that rank is assigned after full-set sorting. -/
theorem score_strategies_rank_before_sort_eval :
    (score_strategies [rowLow, rowHigh]).map (fun r => (r.rank, r.score))
      = [(2, 1), (1, 0)] := by
  norm_num [score_strategies, pyNormalize, isclose, pySorted, insertStable,
    rowLow, rowHigh, List.enum]
  simp
  norm_num

/-- C2: on a flat 0.5 term structure (front, back1, back2 ATM IVs all
0.5) the raw_event_var field returned by event_variance is the
annualized raw event variance divided by 252, i.e. 0.25/252 = 1/1008,
not the 0.25 the claim (and the repository's own
test_flat_term_structure_event_var_zero) requires; the difference is
far outside the 1e-9 tolerance. -/
theorem event_variance_flat_half_iv_eval :
    (event_variance (1/2) (1/2) (some (1/2, 28)) 8 14 3).raw_event_var
      = 1/1008 ∧
    ¬ |(event_variance (1/2) (1/2) (some (1/2, 28)) 8 14 3).raw_event_var
      - 1/4| ≤ 1/1000000000 := by
  constructor
  · norm_num [event_variance, linear_interp, TIME_EPSILON]
  · norm_num [event_variance, linear_interp, TIME_EPSILON]
    rw [abs_of_pos (by norm_num)]
    norm_num

/-- The regime dict classify_regime returns on amplifiedSnap: the gamma
regime is Amplified Move Regime, and no gamma_bias key is present. -/
theorem amplified_regime_eq :
    classify_regime amplifiedSnap =
      [("vol_regime", .str "Fairly Priced"),
       ("event_regime", .str "Distributed Volatility"),
       ("term_structure_regime", .str "Normal Structure"),
       ("gamma_regime", .str "Amplified Move Regime"),
       ("composite_regime", .str "Mixed / Transitional Setup"),
       ("vol_ratio", .num 1),
       ("gex_ratio", .num 1),
       ("vol_confidence", .num 0),
       ("gamma_confidence", .num 1),
       ("event_confidence", .num 0),
       ("confidence", .num (3/10))] := by
  norm_num [classify_regime, amplifiedSnap, pyStartswith]
  intro h
  exact absurd h (by simp)

/-- The population statistics the pipeline builds for the batch
[gammaStrat] are gammaPopStats. -/
theorem pipeline_stats_eq :
    compute_all_alignments [gammaStrat] (classify_regime amplifiedSnap)
      = [compute_alignment gammaStrat (classify_regime amplifiedSnap)
          gammaPopStats] := by
  simp [compute_all_alignments, dnum, dget, List.find?, gammaStrat,
    gammaPopStats, npmedian, insertLe]

/-- The gamma axis the pipeline computes on amplifiedSnap is 0.5: the
alignment scorer looks up the key gamma_bias, which classify_regime
never emits, and falls back to the neutral branch. -/
theorem gamma_axis_half :
    (compute_alignment gammaStrat (classify_regime amplifiedSnap)
      gammaPopStats).gamma_alignment = 1/2 := by
  rw [amplified_regime_eq]
  simp only [compute_alignment]
  simp [dget, List.find?]
  norm_num [round3]

/-- The scaled-sign value the claim prescribes for this input is 1. -/
theorem claimed_gamma_axis_one :
    scaled_sign (dnum gammaStrat "net_gamma" 0) true
      (dnum gammaPopStats "median_abs_gamma" 1) = 1 := by
  simp [dnum, dget, List.find?, gammaStrat, gammaPopStats]
  norm_num [scaled_sign]

/-- C3: on a snapshot classified Amplified Move Regime (non-neutral)
with a nonzero normalizing scale (median absolute net gamma 5), the
pipeline classify_regime followed by compute_alignment produces a gamma
axis of 0.5, while the scaled-sign value of the strategy's net gamma
the claim prescribes is 1: compute_alignment reads the regime key
gamma_bias, which classify_regime never emits, so the gamma axis always
takes the neutral fallback. -/
theorem alignment_gamma_axis_neutral_fallback_eval :
    dget (classify_regime amplifiedSnap) "gamma_regime" (.str "")
      = .str "Amplified Move Regime" ∧
    compute_all_alignments [gammaStrat] (classify_regime amplifiedSnap)
      = [compute_alignment gammaStrat (classify_regime amplifiedSnap)
          gammaPopStats] ∧
    (compute_alignment gammaStrat (classify_regime amplifiedSnap)
      gammaPopStats).gamma_alignment = 1/2 ∧
    dnum gammaPopStats "median_abs_gamma" 1 = 5 ∧
    scaled_sign (dnum gammaStrat "net_gamma" 0) true
      (dnum gammaPopStats "median_abs_gamma" 1) = 1 := by
  refine ⟨?_, pipeline_stats_eq, gamma_axis_half, ?_, claimed_gamma_axis_one⟩
  · rw [amplified_regime_eq]
    simp [dget, List.find?]
  · simp [dnum, dget, List.find?, gammaPopStats]

/-- C4 counterexample: on a snapshot with event_variance_ratio = -0.8
(historical_p75 = 0.1 > 0, gex_abs = 1 >= 0), classify_regime returns
event_confidence = -1 and composite confidence = -0.3, both outside
[0, 1], refuting the claim that all four confidence scalars lie in
[0, 1] even for negative event-variance ratios. -/
theorem regime_confidence_negative_eval :
    dnum (classify_regime negEvSnap) "event_confidence" 0 < 0 ∧
    dnum (classify_regime negEvSnap) "confidence" 0 < 0 := by
  constructor <;>
  · simp [classify_regime, dnum, dget, List.find?, negEvSnap, pyStartswith]
    norm_num

/-- C4 (amended): for snapshots with historical_p75 > 0 and
gex_abs >= 0, vol_confidence and gamma_confidence always lie in [0, 1];
event_confidence and the composite 0.4/0.3/0.3 confidence lie in [0, 1]
provided event_variance_ratio is nonnegative (without that proviso
event_confidence = ratio/0.8 is negative and can drag the composite
below zero). -/
theorem regime_confidences_in_unit_interval (s : Snapshot)
    (hp : 0 < s.historical_p75) (hg : 0 ≤ s.gex_abs) :
    (0 ≤ dnum (classify_regime s) "vol_confidence" 0 ∧
      dnum (classify_regime s) "vol_confidence" 0 ≤ 1) ∧
    (0 ≤ dnum (classify_regime s) "gamma_confidence" 0 ∧
      dnum (classify_regime s) "gamma_confidence" 0 ≤ 1) ∧
    (0 ≤ s.event_variance_ratio →
      (0 ≤ dnum (classify_regime s) "event_confidence" 0 ∧
        dnum (classify_regime s) "event_confidence" 0 ≤ 1) ∧
      (0 ≤ dnum (classify_regime s) "confidence" 0 ∧
        dnum (classify_regime s) "confidence" 0 ≤ 1)) := by
  have hvol : dnum (classify_regime s) "vol_confidence" 0
      = min (|s.implied_move / s.historical_p75 - 1| / (20/100)) 1 := by
    simp [classify_regime, dnum, dget, List.find?]
  have hgam : dnum (classify_regime s) "gamma_confidence" 0
      = (if s.gex_abs > 0 then min (|s.gex_net| / s.gex_abs) 1 else 0) := by
    simp [classify_regime, dnum, dget, List.find?]
  have hev : dnum (classify_regime s) "event_confidence" 0
      = min (s.event_variance_ratio / (8/10)) 1 := by
    simp [classify_regime, dnum, dget, List.find?]
  have hconf : dnum (classify_regime s) "confidence" 0
      = 4/10 * min (|s.implied_move / s.historical_p75 - 1| / (20/100)) 1
        + 3/10 * (if s.gex_abs > 0 then min (|s.gex_net| / s.gex_abs) 1
            else 0)
        + 3/10 * min (s.event_variance_ratio / (8/10)) 1 := by
    simp [classify_regime, dnum, dget, List.find?]
  rw [hvol, hgam, hev, hconf]
  have v0 : (0:ℚ)
      ≤ min (|s.implied_move / s.historical_p75 - 1| / (20/100)) 1 :=
    le_min (div_nonneg (abs_nonneg _) (by norm_num)) zero_le_one
  have v1 : min (|s.implied_move / s.historical_p75 - 1| / (20/100)) 1
      ≤ 1 := min_le_right _ _
  have g0 : (0:ℚ)
      ≤ (if s.gex_abs > 0 then min (|s.gex_net| / s.gex_abs) 1 else 0) := by
    split
    · exact le_min (div_nonneg (abs_nonneg _) hg) zero_le_one
    · exact le_refl 0
  have g1 : (if s.gex_abs > 0 then min (|s.gex_net| / s.gex_abs) 1 else 0)
      ≤ 1 := by
    split
    · exact min_le_right _ _
    · exact zero_le_one
  refine ⟨⟨v0, v1⟩, ⟨g0, g1⟩, fun hevr => ?_⟩
  have e0 : (0:ℚ) ≤ min (s.event_variance_ratio / (8/10)) 1 :=
    le_min (div_nonneg hevr (by norm_num)) zero_le_one
  have e1 : min (s.event_variance_ratio / (8/10)) 1 ≤ 1 := min_le_right _ _
  exact ⟨⟨e0, e1⟩, ⟨by linarith, by linarith⟩⟩

/-- C4 witness: the composite confidence on okSnap (nonnegative
event_variance_ratio) lies in [0, 1]. -/
theorem regime_confidences_witness :
    0 ≤ dnum (classify_regime okSnap) "confidence" 0 ∧
    dnum (classify_regime okSnap) "confidence" 0 ≤ 1 :=
  ((regime_confidences_in_unit_interval okSnap (by norm_num [okSnap])
    (by norm_num [okSnap])).2.2 (by norm_num [okSnap])).2

/-- C5: simulate_moves with an explicit seed is a pure function of
(event_vol, simulations, seed): the returned array does not depend on
the ambient entropy World (np.random.default_rng(seed) builds the
generator state from the seed alone), so two invocations with identical
arguments return identical arrays. -/
theorem simulate_moves_deterministic (std_normal : ℕ → ℕ → List ℝ)
    (w1 w2 : World) (sigma : ℝ) (n : ℕ) (s : ℕ) :
    simulate_moves std_normal w1 sigma n (some s)
      = simulate_moves std_normal w2 sigma n (some s) := by
  simp [simulate_moves, default_rng]

/-- Mapping a function that never fails through the Except monad
collects exactly the elementwise images. -/
theorem mapM_of_ok {α β : Type} (g : α → β) (f : α → Except String β)
    (l : List α) (h : ∀ a, f a = .ok (g a)) : l.mapM f = .ok (l.map g) := by
  induction l with
  | nil => rfl
  | cons a t ih => rw [List.mapM_cons, h a, ih]; rfl

/-- C6: for a valid option type, option_price_vec applied to a spot
array equals option_price applied to each spot scalar, in both the
t <= 0 intrinsic branch and the t > 0 Black-Scholes branch (exact
equality in the real-number embedding, hence within any floating
tolerance). -/
theorem option_price_vec_refines_scalar (cdf : ℝ → ℝ)
    (xs : List ℝ) (strike t r q iv : ℝ) (ty : String)
    (hty : ty = "call" ∨ ty = "put") :
    option_price_vec cdf xs strike t r q iv ty
      = xs.mapM (fun s => option_price cdf s strike t r q iv ty) := by
  rcases hty with h | h <;> subst h <;> by_cases ht : t ≤ 0
  · rw [mapM_of_ok (fun a => max (a - strike) 0) _ xs
      (fun a => by simp [option_price, ht])]
    simp [option_price_vec, ht]
  · rw [mapM_of_ok (fun a =>
        a * Real.exp (-q * t) *
          cdf ((Real.log (a / strike) + (r - q + (1/2) * iv ^ 2) * t) /
            (iv * Real.sqrt t)) -
        strike * Real.exp (-r * t) *
          cdf ((Real.log (a / strike) + (r - q + (1/2) * iv ^ 2) * t) /
            (iv * Real.sqrt t) - iv * Real.sqrt t)) _ xs
      (fun a => by simp [option_price, ht])]
    simp [option_price_vec, ht]
  · rw [mapM_of_ok (fun a => max (strike - a) 0) _ xs
      (fun a => by simp [option_price, ht])]
    simp [option_price_vec, ht]
  · rw [mapM_of_ok (fun a =>
        strike * Real.exp (-r * t) *
          cdf (-((Real.log (a / strike) + (r - q + (1/2) * iv ^ 2) * t) /
            (iv * Real.sqrt t) - iv * Real.sqrt t)) -
        a * Real.exp (-q * t) *
          cdf (-((Real.log (a / strike) + (r - q + (1/2) * iv ^ 2) * t) /
            (iv * Real.sqrt t)))) _ xs
      (fun a => by simp [option_price, ht])]
    simp [option_price_vec, ht]

/-- C6 witness: the refinement instantiated on a two-element spot array
at the intrinsic branch. -/
theorem option_price_vec_witness :
    option_price_vec (fun x => x) [1, 2] 1 0 0 0 1 "call"
      = [1, 2].mapM (fun s => option_price (fun x => x) s 1 0 0 0 1 "call") :=
  option_price_vec_refines_scalar (fun x => x) [1, 2] 1 0 0 0 1 "call"
    (Or.inl rfl)

/-- The put-call parity property exactly as the claim quantifies it:
over all t, including t <= 0, to within the stated tolerance. -/
def put_call_parity_claim (cdf : ℝ → ℝ) (tol : ℝ) : Prop :=
  ∀ spot strike t r q iv c p : ℝ,
    option_price cdf spot strike t r q iv "call" = .ok c →
    option_price cdf spot strike t r q iv "put" = .ok p →
    |c - p - (spot * Real.exp (-q * t) - strike * Real.exp (-r * t))| ≤ tol

/-- C7 counterexample: at spot = strike = 1, t = -1, r = 1, q = 0 both
prices collapse to intrinsic value 0, while the parity right-hand side
is 1 - e, so the defect is e - 1 > 1e-6: the parity claim fails when
quantified over negative t. -/
theorem put_call_parity_fails_for_negative_t :
    ¬ put_call_parity_claim (fun _ => 1/2) (1/1000000) := by
  intro h
  have hc : option_price (fun _ => 1/2) 1 1 (-1) 1 0 1 "call" = .ok 0 := by
    norm_num [option_price]
  have hp : option_price (fun _ => 1/2) 1 1 (-1) 1 0 1 "put" = .ok 0 := by
    norm_num [option_price]
  have := h 1 1 (-1) 1 0 1 0 0 hc hp
  rw [show (-(0:ℝ) * (-1)) = 0 by ring, show (-(1:ℝ) * (-1)) = 1 by ring,
    Real.exp_zero] at this
  have hgt := Real.exp_one_gt_d9
  rw [abs_le] at this
  nlinarith [this.1, this.2]

/-- C7 (amended): put-call parity holds exactly for every t >= 0,
assuming only the CDF symmetry cdf x + cdf (-x) = 1 satisfied by the
normal CDF: price(call) - price(put) = spot*e^(-q*t) - strike*e^(-r*t),
covering both the t = 0 intrinsic collapse and the t > 0
Black-Scholes branch. -/
theorem put_call_parity_for_nonneg_t (cdf : ℝ → ℝ)
    (hcdf : ∀ x, cdf x + cdf (-x) = 1) (spot strike t r q iv : ℝ)
    (ht : 0 ≤ t) :
    ∃ c p, option_price cdf spot strike t r q iv "call" = .ok c ∧
      option_price cdf spot strike t r q iv "put" = .ok p ∧
      c - p = spot * Real.exp (-q * t) - strike * Real.exp (-r * t) := by
  by_cases h0 : t ≤ 0
  · have hteq : t = 0 := le_antisymm h0 ht
    subst hteq
    refine ⟨max (spot - strike) 0, max (strike - spot) 0, ?_, ?_, ?_⟩
    · simp [option_price]
    · simp [option_price]
    · have hmax : max (spot - strike) 0 - max (strike - spot) 0
          = spot - strike := by
        rcases le_total spot strike with hle | hle
        · rw [max_eq_right (sub_nonpos.mpr hle),
            max_eq_left (sub_nonneg.mpr hle)]
          ring
        · rw [max_eq_left (sub_nonneg.mpr hle),
            max_eq_right (sub_nonpos.mpr hle)]
          ring
      rw [hmax]
      simp [Real.exp_zero]
  · set d1 := (Real.log (spot / strike) + (r - q + (1/2) * iv ^ 2) * t) /
      (iv * Real.sqrt t) with hd1
    set d2 := d1 - iv * Real.sqrt t with hd2
    refine ⟨spot * Real.exp (-q * t) * cdf d1 -
        strike * Real.exp (-r * t) * cdf d2,
      strike * Real.exp (-r * t) * cdf (-d2) -
        spot * Real.exp (-q * t) * cdf (-d1), ?_, ?_, ?_⟩
    · simp [option_price, h0, hd1, hd2]
    · simp [option_price, h0, hd1, hd2]
    · have h1 := hcdf d1
      have h2 := hcdf d2
      linear_combination spot * Real.exp (-q * t) * h1 -
        strike * Real.exp (-r * t) * h2

/-- C7 witness: parity at spot 2, strike 1, t = 0 under the constant
half CDF (which satisfies the symmetry hypothesis). -/
theorem put_call_parity_witness :
    ∃ c p, option_price (fun _ => 1/2) 2 1 0 0 0 1 "call" = .ok c ∧
      option_price (fun _ => 1/2) 2 1 0 0 0 1 "put" = .ok p ∧
      c - p = 2 * Real.exp (-0 * 0) - 1 * Real.exp (-0 * 0) :=
  put_call_parity_for_nonneg_t (fun _ => 1/2) (fun x => by norm_num)
    2 1 0 0 0 1 le_rfl

/-- C8: the backspread gate passes iff all five conditions hold
(iv_ratio >= 1.40, event_variance_ratio >= 0.50, implied_move <=
historical_p75 * 0.90, short_delta >= 0.08, back_dte in [21, 45]), and
the short-delta boundary is inclusive: with the other gates at passing
values, short_delta = 0.08 passes and 0.079 fails. -/
theorem backspread_gate_iff_and_delta_boundary :
    (∀ s : Snapshot, backspread_conditions_met s = true ↔
      (s.iv_ratio ≥ 14/10 ∧ s.event_variance_ratio ≥ 1/2 ∧
       s.implied_move ≤ s.historical_p75 * (9/10) ∧ s.short_delta ≥ 8/100 ∧
       21 ≤ pyInt s.back_dte ∧ pyInt s.back_dte ≤ 45)) ∧
    backspread_conditions_met backspreadPassSnap = true ∧
    backspread_conditions_met backspreadFailSnap = false := by
  refine ⟨fun s => ?_, ?_, ?_⟩
  · simp [backspread_conditions_met, and_assoc]
  · norm_num [backspread_conditions_met, backspreadPassSnap, pyInt]
  · norm_num [backspread_conditions_met, backspreadFailSnap,
      backspreadPassSnap, pyInt]

/-- C9: for a pre-event snapshot (days_after_event = 0) the calendar
gate admits iff |back_dte - front_dte| >= 14, and the gate is invariant
under swapping front_dte with back_dte (inverted term structures pass
identically). -/
theorem calendar_gate_spread_and_inversion :
    ∀ s : Snapshot, pyInt s.days_after_event = 0 →
      ((calendar_conditions_met s = true ↔
        14 ≤ |pyInt s.back_dte - pyInt s.front_dte|) ∧
       calendar_conditions_met s = calendar_conditions_met (swap_dte s)) := by
  intro s h
  constructor
  · simp [calendar_conditions_met, h]
  · simp [calendar_conditions_met, swap_dte, h, abs_sub_comm]

/-- C9 witness: the inverted snapshot front_dte = 35, back_dte = 7
passes the gate and agrees with its swap (front 7 / back 35). -/
theorem calendar_gate_witness :
    calendar_conditions_met calendarInvSnap = true ∧
    calendar_conditions_met calendarInvSnap
      = calendar_conditions_met (swap_dte calendarInvSnap) := by
  have h := calendar_gate_spread_and_inversion calendarInvSnap
    (by norm_num [calendarInvSnap, pyInt])
  exact ⟨h.1.mpr (by norm_num [calendarInvSnap, pyInt]), h.2⟩

/-- C10: every element of the array returned by simulate_moves is
strictly greater than -1 (exp of a real minus 1, or exactly 0 in the
degenerate branch); consequently every terminal spot
spot * (1 + move) computed in strategy_pnl_vec from a positive spot is
strictly positive, and for a positive strike the pricing kernel's
log argument spot/strike is positive. -/
theorem simulated_moves_gt_neg_one_and_spots_positive
    (std_normal : ℕ → ℕ → List ℝ) (w : World) (sigma : ℝ) (n : ℕ)
    (seed : Option ℕ) (spot strike : ℝ) (hspot : 0 < spot)
    (hstrike : 0 < strike) :
    (∀ m ∈ simulate_moves std_normal w sigma n seed, -1 < m) ∧
    (∀ x ∈ new_spots spot (simulate_moves std_normal w sigma n seed),
      0 < x ∧ 0 < x / strike) := by
  have key : ∀ m ∈ simulate_moves std_normal w sigma n seed, -1 < m := by
    intro m hm
    unfold simulate_moves at hm
    split at hm
    · rw [List.eq_of_mem_replicate hm]
      norm_num
    · obtain ⟨z, _, hz⟩ := List.mem_map.mp hm
      have hpos := Real.exp_pos (-(1/2) * (sigma / Real.sqrt 252) ^ 2 +
        sigma / Real.sqrt 252 * z)
      rw [← hz]
      linarith
  refine ⟨key, fun x hx => ?_⟩
  obtain ⟨m, hm, hmx⟩ := List.mem_map.mp hx
  have hpos : 0 < spot * (1 + m) :=
    mul_pos hspot (by linarith [key m hm])
  rw [← hmx]
  exact ⟨hpos, div_pos hpos hstrike⟩

/-- C10 witness: the bound instantiated in the degenerate branch at
spot = strike = 1. -/
theorem simulated_moves_witness :
    (∀ m ∈ simulate_moves (fun _ _ => []) ⟨0⟩ 0 1 none, -1 < m) ∧
    (∀ x ∈ new_spots 1 (simulate_moves (fun _ _ => []) ⟨0⟩ 0 1 none),
      0 < x ∧ 0 < x / 1) :=
  simulated_moves_gt_neg_one_and_spots_positive (fun _ _ => []) ⟨0⟩ 0 1
    none 1 1 (by norm_num) (by norm_num)

end EarningsVol
